import Mathlib

/-!
The lostpets API: record store, index synchronisation and proximity search.

A shallow embedding of `server/server.js`, `server/services/algolia.js`,
`server/services/mail.js` and `server/cloudinary.js`.

* JavaScript values that reach the handlers (JSON scalars, query strings) are
  the type `JsVal`; the conversions the handlers apply to them (`Number(..)`,
  truthiness, `??`) are functions on `JsVal`.
* The record store, the search index, the mail outbox and the console are the
  fields of `World`; every handler is a function `World → World × Response`.
* Everything outside the repository (the database engine, the Algolia engine,
  the uploader, the mail provider) is a field of `Env`: what it returns and
  whether it throws.
-/

set_option autoImplicit false

namespace LostPets

/-! ## JavaScript values -/

/-- A JavaScript number. `fin neg m e` stands for the double nearest to
`(-1)^neg * m * 10^e`; rounding is not modelled, overflow to an infinity is
(see `JsNum.ofDecimal`). -/
inductive JsNum where
  | nan
  | inf (neg : Bool)
  | fin (neg : Bool) (mant : Nat) (exp : Int)
  deriving DecidableEq, Repr

/-- The scalar JavaScript values a JSON or url-encoded body can carry;
`undefined` is what destructuring yields for a key that is missing. -/
inductive JsVal where
  | undefined
  | null
  | bool (b : Bool)
  | num (n : JsNum)
  | str (s : String)
  deriving DecidableEq, Repr

/-- Decimal magnitudes from this bound on round to an infinity: the number
`2^1024 - 2^970`, halfway between the largest double and `2^1024`, written
out (see `overflowBound_eq`). -/
def JsNum.overflowBound : Nat :=
  179769313486231580793728971405303415079934132710037826936173778980444968292764750946649017977587207096330286416692887910946555547851940402630657488671505820681908902000708383676273854845817711531764475730270069855571366959622842914819860834936475292719074168444365510704342711559699508093042880177904174497792

/-- The number denoted by the decimal `(-1)^neg * m * 10^e`. -/
def JsNum.ofDecimal (neg : Bool) (m : Nat) (e : Int) : JsNum :=
  match e with
  | Int.ofNat k => if JsNum.overflowBound ≤ m * 10 ^ k then .inf neg else .fin neg m e
  | Int.negSucc k => if JsNum.overflowBound * 10 ^ (k + 1) ≤ m then .inf neg else .fin neg m e

/-- The number of a natural number. -/
def JsNum.ofNat (n : Nat) : JsNum := JsNum.ofDecimal false n 0

/-- The test `Number.isFinite`. -/
def JsNum.isFinite : JsNum → Bool
  | .fin _ _ _ => true
  | _ => false

/-- The product `x * 1000`. -/
def JsNum.mul1000 : JsNum → JsNum
  | .nan => .nan
  | .inf neg => .inf neg
  | .fin neg m e => JsNum.ofDecimal neg m (e + 3)

/-- WhiteSpace and LineTerminator code points, which `Number(string)` strips
from both ends. -/
def isJsSpace (c : Char) : Bool :=
  let n := c.toNat
  n == 0x9 || n == 0xA || n == 0xB || n == 0xC || n == 0xD || n == 0x20 || n == 0xA0 ||
  n == 0x1680 || (0x2000 ≤ n && n ≤ 0x200A) || n == 0x2028 || n == 0x2029 ||
  n == 0x202F || n == 0x205F || n == 0x3000 || n == 0xFEFF

/-- Strip white space from both ends. -/
def trimChars (cs : List Char) : List Char :=
  ((cs.dropWhile isJsSpace).reverse.dropWhile isJsSpace).reverse

/-- The value of a digit in the given base (2, 8, 10 or 16). -/
def digitVal (base : Nat) (c : Char) : Option Nat :=
  let n := c.toNat
  let v : Option Nat :=
    if 48 ≤ n && n ≤ 57 then some (n - 48)
    else if 97 ≤ n && n ≤ 102 then some (n - 87)
    else if 65 ≤ n && n ≤ 70 then some (n - 55)
    else none
  match v with
  | some d => if d < base then some d else none
  | none => none

/-- Fold digits into a number, most significant first; `none` when a
character is not a digit of the base. -/
def digitsVal (base : Nat) : Nat → List Char → Option Nat
  | acc, [] => some acc
  | acc, c :: cs =>
    match digitVal base c with
    | some d => digitsVal base (acc * base + d) cs
    | none => none

/-- A non-empty run of digits of the base. -/
def digitsVal1 (base : Nat) (cs : List Char) : Option Nat :=
  match cs with
  | [] => none
  | _ => digitsVal base 0 cs

/-- Is the character a decimal digit. -/
def isDecDigit (c : Char) : Bool := 48 ≤ c.toNat && c.toNat ≤ 57

/-- ExponentPart, or nothing: the exponent it denotes. -/
def parseExponent (cs : List Char) : Option Int :=
  match cs with
  | [] => some 0
  | c :: rest =>
    if c == 'e' || c == 'E' then
      match rest with
      | '+' :: ds => (digitsVal1 10 ds).map Int.ofNat
      | '-' :: ds => (digitsVal1 10 ds).map (fun n => - Int.ofNat n)
      | ds => (digitsVal1 10 ds).map Int.ofNat
    else none

/-- StrUnsignedDecimalLiteral with the sign already read. -/
def parseUnsignedDecimal (neg : Bool) (cs : List Char) : JsNum :=
  if cs = "Infinity".data then .inf neg else
  let intPart := cs.takeWhile isDecDigit
  let rest := cs.dropWhile isDecDigit
  let hasDot := rest.head? == some '.'
  let fracPart := if hasDot then (rest.drop 1).takeWhile isDecDigit else []
  let tail := if hasDot then (rest.drop 1).dropWhile isDecDigit else rest
  if intPart.isEmpty && fracPart.isEmpty then .nan else
  match digitsVal 10 0 (intPart ++ fracPart), parseExponent tail with
  | some m, some e => JsNum.ofDecimal neg m (e - Int.ofNat fracPart.length)
  | _, _ => .nan

/-- StringToNumber on the characters of a string. -/
def stringToNumber (s : List Char) : JsNum :=
  match trimChars s with
  | [] => .fin false 0 0
  | '+' :: cs => parseUnsignedDecimal false cs
  | '-' :: cs => parseUnsignedDecimal true cs
  | '0' :: c :: cs =>
    let base : Option Nat :=
      if c == 'x' || c == 'X' then some 16
      else if c == 'o' || c == 'O' then some 8
      else if c == 'b' || c == 'B' then some 2
      else none
    match base with
    | some b =>
      match digitsVal1 b cs with
      | some n => JsNum.ofNat n
      | none => .nan
    | none => parseUnsignedDecimal false ('0' :: c :: cs)
  | cs => parseUnsignedDecimal false cs

/-- The conversion `Number(v)`. -/
def jsNumber : JsVal → JsNum
  | .undefined => .nan
  | .null => .fin false 0 0
  | .bool true => .fin false 1 0
  | .bool false => .fin false 0 0
  | .num n => n
  | .str s => stringToNumber s.data

/-- Truthiness: what `!v` negates and `v ? a : b` tests. -/
def truthy : JsVal → Bool
  | .undefined => false
  | .null => false
  | .bool b => b
  | .num (.fin _ m _) => m != 0
  | .num .nan => false
  | .num (.inf _) => true
  | .str s => s != ""

/-- The expression `v ?? null`. -/
def orNull : JsVal → JsVal
  | .undefined => .null
  | v => v

/-- The test `v != null`, false for `null` and `undefined`. -/
def notNullish : JsVal → Bool
  | .undefined => false
  | .null => false
  | _ => true

/-- The expression `v !== undefined ? Number(v) : null`, the coordinate
argument of both pet writes. -/
def coordParam (v : JsVal) : JsVal :=
  if v = .undefined then .null else .num (jsNumber v)

/-- The call `s.startsWith(p)`. -/
def jsStartsWith (s p : String) : Bool := s.data.take p.data.length == p.data

/-- String conversion inside a template literal, given the conversion of
numbers (`Number::toString`, taken from the environment). -/
def render (numToString : JsNum → String) : JsVal → String
  | .undefined => "undefined"
  | .null => "null"
  | .bool true => "true"
  | .bool false => "false"
  | .num n => numToString n
  | .str s => s

/-! ## Record store, index, outbox -/

/-- A row of the table `pets`, with the column aliases of the `RETURNING`
clauses. A column holds the argument the statement was given; SQL `NULL` is
`JsVal.null`. -/
structure Pet where
  id : Nat
  userId : Nat
  name : JsVal
  location : JsVal
  lat : JsVal
  lng : JsVal
  imageUrl : JsVal
  status : JsVal
  createdAt : Nat
  deriving DecidableEq, Repr

/-- A row of the table `reports`. -/
structure Report where
  id : Nat
  petId : Nat
  reporterName : JsVal
  reporterPhone : JsVal
  location : JsVal
  details : JsVal
  createdAt : Nat
  deriving DecidableEq, Repr

/-- A row of the table `auth`, the columns the report lookup joins on. -/
structure AuthRow where
  user_id : Nat
  email : JsVal
  deriving DecidableEq, Repr

/-- The record store: the three tables the pet and report handlers touch and
the next value of each serial key. -/
structure Store where
  pets : List Pet
  reports : List Report
  auth : List AuthRow
  nextPetId : Nat
  nextReportId : Nat
  deriving DecidableEq, Repr

/-- The geo-point of an index document. -/
structure GeoLoc where
  lat : JsNum
  lng : JsNum
  deriving DecidableEq, Repr

/-- The object `indexPet` hands to `saveObject`; a property that is
`undefined` in the source is `JsVal.undefined` or `none` here. -/
structure IndexDoc where
  objectID : String
  name : JsVal
  status : JsVal
  location : JsVal
  image_url : JsVal
  _geoloc : Option GeoLoc
  deriving DecidableEq, Repr

/-- The arguments of `index.search(query, options)`. -/
structure SearchQuery where
  query : String
  aroundLatLng : String
  aroundRadius : JsNum
  filters : String
  deriving DecidableEq, Repr

/-- The object a search resolves to; `hits` may be missing. -/
structure SearchResult where
  hits : Option (List IndexDoc)
  deriving DecidableEq, Repr

/-- A call made on the index client. -/
inductive IndexCall where
  | saveObject (obj : IndexDoc)
  | search (q : SearchQuery)
  deriving DecidableEq, Repr

/-- The argument of `resend.emails.send`; `sender` is its `from`, `to_` its
`to`. -/
structure Email where
  sender : String
  to_ : JsVal
  subject : String
  html : String
  deriving DecidableEq, Repr

/-- Everything a handler can read or change. `index` is the module variable
of `algolia.js`: `none` when the credentials are missing (`index = null`),
otherwise the documents the remote index holds. -/
structure World where
  store : Store
  index : Option (List IndexDoc)
  indexCalls : List IndexCall
  outbox : List Email
  console : List String
  deriving DecidableEq, Repr

/-- The collaborators outside the repository, as the handlers see them during
one request. -/
structure Env where
  /-- The row key the database reads a query argument as; `none` when it
  rejects the argument, which makes the query throw. -/
  readKey : JsVal → Option Nat
  /-- The `SELECT` of the request throws. -/
  selectThrows : Bool
  /-- The `INSERT` or `UPDATE` of the request throws. -/
  writeThrows : Bool
  /-- The value the database gives `created_at`. -/
  now : Nat
  /-- The constant `hasCreds` of `cloudinary.js`. -/
  cloudinaryCreds : Bool
  /-- The `secure_url` of `cloudinary.uploader.upload`; `none` when it throws. -/
  upload : JsVal → Option JsVal
  /-- The call `index.saveObject(obj)` throws. -/
  saveObjectThrows : IndexDoc → Bool
  /-- The result of `index.search` on the documents the index holds; `none`
  when it throws. -/
  search : List IndexDoc → SearchQuery → Option SearchResult
  /-- The variable `RESEND_API_KEY` is set and not empty. -/
  resendKey : Bool
  /-- The variable `FROM_EMAIL`. -/
  fromEmail : Option String
  /-- The call `resend.emails.send(mail)` throws. -/
  sendThrows : Email → Bool
  /-- Number to string conversion of the runtime. -/
  numToString : JsNum → String

/-- The body of a response. -/
inductive Body where
  | error (code : String)
  | pet (p : Pet)
  | pets (ps : List Pet)
  | report (r : Report)
  | hits (hs : List IndexDoc)
  deriving DecidableEq, Repr

/-- A response: `res.status(status).json(body)`. -/
structure Response where
  status : Nat
  body : Body
  deriving DecidableEq, Repr

/-- The call `console.error(tag, e)` or `console.log(tag, ..)`: the tag is
kept. -/
def World.logged (w : World) (tag : String) : World :=
  { w with console := w.console ++ [tag] }

/-- The response of every `catch` block. -/
def internalError : Response := { status := 500, body := .error "internal_error" }

/-! ## server/cloudinary.js -/

/-- The function `uploadDataURI`: `none` when the upload throws, otherwise the
value returned. -/
def uploadDataURI (env : Env) (dataURI : JsVal) : Option JsVal :=
  if !env.cloudinaryCreds || !truthy dataURI then some .null
  else env.upload dataURI

/-! ## server/services/algolia.js -/

/-- The argument of `indexPet`: the properties it reads. -/
structure IndexInput where
  id : Nat
  name : JsVal
  status : JsVal
  location : JsVal
  image_url : JsVal
  imageUrl : JsVal
  lat : JsVal
  lng : JsVal
  deriving DecidableEq, Repr

/-- The expression `a || b`. -/
def jsOr (a b : JsVal) : JsVal := if truthy a then a else b

/-- The object `obj` that `indexPet` builds. -/
def indexObject (pet : IndexInput) : IndexDoc :=
  { objectID := toString pet.id
    name := pet.name
    status := pet.status
    location := pet.location
    image_url := jsOr (jsOr pet.image_url pet.imageUrl) .undefined
    _geoloc :=
      if notNullish pet.lat && notNullish pet.lng
      then some { lat := jsNumber pet.lat, lng := jsNumber pet.lng }
      else none }

/-- The effect of a successful `saveObject` on the documents of the index:
the document with the same `objectID` is replaced, or the document is added. -/
def saveObject (docs : List IndexDoc) (obj : IndexDoc) : List IndexDoc :=
  docs.filter (fun d => d.objectID != obj.objectID) ++ [obj]

/-- The function `indexPet`: the world after the call, and whether it threw. -/
def indexPet (env : Env) (w : World) (pet : IndexInput) : World × Bool :=
  match w.index with
  | none => (w, false)
  | some docs =>
    let obj := indexObject pet
    let w1 := { w with indexCalls := w.indexCalls ++ [.saveObject obj] }
    if env.saveObjectThrows obj then (w1, true)
    else ({ w1 with index := some (saveObject docs obj) }, false)

/-- The arguments `searchNearby` gives `index.search`: the text `""` and the
options `aroundLatLng`, `aroundRadius`, `filters`; a radius that is not given
defaults to 3000. -/
def nearbyQuery (env : Env) (lat lng : JsNum) (radiusMeters : Option JsNum) : SearchQuery :=
  { query := ""
    aroundLatLng := env.numToString lat ++ ", " ++ env.numToString lng
    aroundRadius := radiusMeters.getD (JsNum.ofNat 3000)
    filters := "status:lost" }

/-- The function `searchNearby`: the world after the call, and the value it
resolves to, `none` when it throws. -/
def searchNearby (env : Env) (w : World) (lat lng : JsNum) (radiusMeters : Option JsNum) :
    World × Option SearchResult :=
  match w.index with
  | none => (w, some { hits := some [] })
  | some docs =>
    let q := nearbyQuery env lat lng radiusMeters
    ({ w with indexCalls := w.indexCalls ++ [.search q] }, env.search docs q)

/-! ## server/services/mail.js -/

/-- The expression `process.env.FROM_EMAIL || "notificaciones@example.com"`. -/
def mailSender (env : Env) : String :=
  match env.fromEmail with
  | some s => if s != "" then s else "notificaciones@example.com"
  | none => "notificaciones@example.com"

/-- The function `sendReportEmail`: the world after the call, and whether it
threw. -/
def sendReportEmail (env : Env) (w : World) (to_ : JsVal) (subject html : String) :
    World × Bool :=
  if !env.resendKey then (w.logged "EMAIL DEV >>>", false)
  else
    let mail : Email :=
      { sender := mailSender env, to_ := to_, subject := subject, html := html }
    if env.sendThrows mail then (w, true)
    else ({ w with outbox := w.outbox ++ [mail] }, false)

/-! ## The statements server.js sends to the store -/

/-- How node-postgres sends an argument: `undefined` goes out as `NULL`. -/
def sqlArg (v : JsVal) : JsVal := orNull v

/-- The SQL expression `COALESCE(arg, stored)`. -/
def coalesce (arg stored : JsVal) : JsVal :=
  if sqlArg arg = .null then stored else arg

/-- The row that `INSERT INTO pets (user_id, name, location, lat, lng,
image_url, status) VALUES ($1,$2,$3,$4,$5,$6,'lost')` adds. -/
def newPet (env : Env) (st : Store) (userId : Nat)
    (name location lat lng imageUrl : JsVal) : Pet :=
  { id := st.nextPetId
    userId := userId
    name := sqlArg name
    location := sqlArg location
    lat := sqlArg lat
    lng := sqlArg lng
    imageUrl := sqlArg imageUrl
    status := .str "lost"
    createdAt := env.now }

/-- The statement `INSERT INTO pets (..) VALUES ($1,..,$6,'lost') RETURNING ..`:
the store after it and the row returned, `r.rows[0]`; `none` when it throws. -/
def insertPet (env : Env) (st : Store) (userId : Nat)
    (name location lat lng imageUrl : JsVal) : Option (Store × Pet) :=
  if env.writeThrows then none
  else
    let pet := newPet env st userId name location lat lng imageUrl
    some ({ st with pets := st.pets ++ [pet], nextPetId := st.nextPetId + 1 }, pet)

/-- The statement `SELECT user_id FROM pets WHERE id=$1`. -/
def selectOwner (env : Env) (st : Store) (id : JsVal) : Option (List Nat) :=
  if env.selectThrows then none
  else
    match env.readKey id with
    | none => none
    | some k => some ((st.pets.filter (fun p => p.id == k)).map (fun p => p.userId))

/-- The `SET` clause of the update on one row. -/
def updateRow (p : Pet) (name location status lat lng imageUrl : JsVal) : Pet :=
  { p with
    name := coalesce name p.name
    location := coalesce location p.location
    status := coalesce status p.status
    lat := coalesce lat p.lat
    lng := coalesce lng p.lng
    imageUrl := coalesce imageUrl p.imageUrl }

/-- The statement `UPDATE pets SET .. WHERE id=$7 RETURNING ..`. -/
def updatePet (env : Env) (st : Store) (name location status lat lng imageUrl id : JsVal) :
    Option (Store × List Pet) :=
  if env.writeThrows then none
  else
    match env.readKey id with
    | none => none
    | some k =>
      let pets := st.pets.map (fun p =>
        if p.id == k then updateRow p name location status lat lng imageUrl else p)
      some ({ st with pets := pets }, pets.filter (fun p => p.id == k))

/-- A row of the report lookup: `p.id, p.name, p.user_id, a.email`. -/
structure PetContact where
  id : Nat
  name : JsVal
  user_id : Nat
  email : JsVal
  deriving DecidableEq, Repr

/-- The statement `SELECT p.id, p.name, p.user_id, a.email FROM pets p JOIN
auth a ON a.user_id = p.user_id WHERE p.id=$1`. -/
def selectPetContact (env : Env) (st : Store) (petId : JsVal) : Option (List PetContact) :=
  if env.selectThrows then none
  else
    match env.readKey petId with
    | none => none
    | some k =>
      some ((st.pets.filter (fun p => p.id == k)).flatMap (fun p =>
        (st.auth.filter (fun a => a.user_id == p.userId)).map (fun a =>
          { id := p.id, name := p.name, user_id := p.userId, email := a.email })))

/-- The row that `INSERT INTO reports (pet_id, reporter_name, reporter_phone,
location, details) VALUES ($1,..,$5)` adds, `k` being the key read from `$1`. -/
def newReport (env : Env) (st : Store) (k : Nat)
    (reporterName reporterPhone location details : JsVal) : Report :=
  { id := st.nextReportId
    petId := k
    reporterName := sqlArg reporterName
    reporterPhone := sqlArg reporterPhone
    location := sqlArg location
    details := sqlArg details
    createdAt := env.now }

/-- The statement `INSERT INTO reports (..) VALUES ($1,..,$5) RETURNING ..`:
the store after it and the row returned; `none` when it throws. -/
def insertReport (env : Env) (st : Store)
    (petId reporterName reporterPhone location details : JsVal) :
    Option (Store × Report) :=
  if env.writeThrows then none
  else
    match env.readKey petId with
    | none => none
    | some k =>
      let report := newReport env st k reporterName reporterPhone location details
      some ({ st with reports := st.reports ++ [report],
                      nextReportId := st.nextReportId + 1 }, report)

/-! ## server/server.js: the handlers -/

/-- The properties the pet handlers destructure from `req.body || {}`; a
missing property is `undefined`. -/
structure PetBody where
  name : JsVal
  location : JsVal
  status : JsVal
  lat : JsVal
  lng : JsVal
  imageDataURI : JsVal
  deriving DecidableEq, Repr

/-- The object both pet handlers pass to `indexPet`. -/
def indexInput (pet : Pet) : IndexInput :=
  { id := pet.id
    name := pet.name
    status := pet.status
    location := pet.location
    image_url := pet.imageUrl
    imageUrl := .undefined
    lat := pet.lat
    lng := pet.lng }

/-- The expression `imageDataURI ? await uploadDataURI(imageDataURI) : null`
of the create handler; `none` when the upload throws. -/
def createImage (env : Env) (body : PetBody) : Option JsVal :=
  if truthy body.imageDataURI then uploadDataURI env body.imageDataURI else some .null

/-- The variable `imageUrl` of the update handler: `null`, or the upload of an
`imageDataURI` that starts with `data:image/`; `none` when the upload throws or
`imageDataURI` is truthy and has no method `startsWith`. -/
def updateImage (env : Env) (body : PetBody) : Option JsVal :=
  if truthy body.imageDataURI then
    match body.imageDataURI with
    | .str s =>
      if jsStartsWith s "data:image/" then uploadDataURI env body.imageDataURI
      else some .null
    | _ => none
  else some .null

/-- The handler of `POST /pets`, behind `authRequired`, which has set
`req.userId`. -/
def postPets (env : Env) (w : World) (userId : Nat) (body : PetBody) : World × Response :=
  if !truthy body.name then (w, { status := 400, body := .error "missing_name" })
  else
    match createImage env body with
    | none => (w.logged "pets_create_error:", internalError)
    | some imageUrl =>
      match insertPet env w.store userId body.name (orNull body.location)
          (coordParam body.lat) (coordParam body.lng) imageUrl with
      | none => (w.logged "pets_create_error:", internalError)
      | some (st, pet) =>
        match indexPet env { w with store := st } (indexInput pet) with
        | (w1, true) => (w1.logged "pets_create_error:", internalError)
        | (w1, false) => (w1, { status := 201, body := .pet pet })

/-- The handler of `PUT /pets/:id`, behind `authRequired`; `idParam` is
`req.params.id`. -/
def putPetsId (env : Env) (w : World) (userId : Nat) (idParam : String) (body : PetBody) :
    World × Response :=
  let id := JsVal.num (jsNumber (.str idParam))
  match selectOwner env w.store id with
  | none => (w.logged "pets_update_error:", internalError)
  | some [] => (w, { status := 404, body := .error "not_found" })
  | some (owner :: _) =>
    if owner != userId then (w, { status := 403, body := .error "forbidden" })
    else
      match updateImage env body with
      | none => (w.logged "pets_update_error:", internalError)
      | some imageUrl =>
        match updatePet env w.store (orNull body.name) (orNull body.location)
            (orNull body.status) (coordParam body.lat) (coordParam body.lng) imageUrl id with
        | none => (w.logged "pets_update_error:", internalError)
        | some (st, []) =>
          ({ w with store := st }.logged "pets_update_error:", internalError)
        | some (st, pet :: _) =>
          match indexPet env { w with store := st } (indexInput pet) with
          | (w1, true) => (w1.logged "pets_update_error:", internalError)
          | (w1, false) => (w1, { status := 200, body := .pet pet })

/-- The query parameters `GET /pets-near` reads; a missing one is
`undefined`. -/
structure NearQuery where
  lat : JsVal
  lng : JsVal
  radiusKm : JsVal
  deriving DecidableEq, Repr

/-- The expression `a ?? b`. -/
def nullish (a b : JsVal) : JsVal :=
  if notNullish a then a else b

/-- The handler of `GET /pets-near`. -/
def getPetsNear (env : Env) (w : World) (query : NearQuery) : World × Response :=
  let lat := jsNumber query.lat
  let lng := jsNumber query.lng
  let radiusKm := jsNumber (nullish query.radiusKm (.num (JsNum.ofNat 2)))
  if !lat.isFinite || !lng.isFinite then
    (w, { status := 400, body := .error "invalid_lat_lng" })
  else
    match searchNearby env w lat lng (some radiusKm.mul1000) with
    | (w1, none) => (w1.logged "pets_near_error:", internalError)
    | (w1, some r) => (w1, { status := 200, body := .hits (r.hits.getD []) })

/-- The properties `POST /reports` destructures from `req.body || {}`. -/
structure ReportBody where
  petId : JsVal
  reporterName : JsVal
  reporterPhone : JsVal
  location : JsVal
  details : JsVal
  deriving DecidableEq, Repr

/-- The template literal `html` of the report handler. -/
def reportHtml (env : Env) (petName : JsVal) (body : ReportBody) : String :=
  let r := render env.numToString
  "\n      <h2>Avistaje de " ++ r petName ++ "</h2>\n      <p><b>Quien reporta:</b> " ++
  r body.reporterName ++ " (" ++ r body.reporterPhone ++ ")</p>\n      " ++
  (if truthy body.location then "<p><b>Ubicación:</b> " ++ r body.location ++ "</p>" else "") ++
  "\n      " ++
  (if truthy body.details then "<p><b>Detalles:</b> " ++ r body.details ++ "</p>" else "") ++
  "\n    "

/-- The handler of `POST /reports`. -/
def postReports (env : Env) (w : World) (body : ReportBody) : World × Response :=
  if !truthy body.petId || !truthy body.reporterName || !truthy body.reporterPhone then
    (w, { status := 400, body := .error "missing_fields" })
  else
    match selectPetContact env w.store body.petId with
    | none => (w.logged "report_create_error:", internalError)
    | some [] => (w, { status := 404, body := .error "pet_not_found" })
    | some (pet :: _) =>
      match insertReport env w.store body.petId body.reporterName body.reporterPhone
          (orNull body.location) (orNull body.details) with
      | none => (w.logged "report_create_error:", internalError)
      | some (st, report) =>
        match sendReportEmail env { w with store := st } pet.email
            ("Posible avistaje de " ++ render env.numToString pet.name)
            (reportHtml env pet.name body) with
        | (w1, true) => (w1.logged "report_create_error:", internalError)
        | (w1, false) => (w1, { status := 201, body := .report report })

/-! ## What a request writes -/

/-- The row the update handler writes over `p`: the `SET` clause with the
arguments the handler passes for a body and an image. -/
def updatedPet (p : Pet) (body : PetBody) (imageUrl : JsVal) : Pet :=
  updateRow p (orNull body.name) (orNull body.location) (orNull body.status)
    (coordParam body.lat) (coordParam body.lng) imageUrl

/-- The row the create handler inserts for a body and an image. -/
def createdPet (env : Env) (st : Store) (userId : Nat) (body : PetBody) (imageUrl : JsVal) :
    Pet :=
  newPet env st userId body.name (orNull body.location)
    (coordParam body.lat) (coordParam body.lng) imageUrl

/-- The mail the report handler sends for a pet of the lookup. -/
def reportMail (env : Env) (pet : PetContact) (body : ReportBody) : Email :=
  { sender := mailSender env
    to_ := pet.email
    subject := "Posible avistaje de " ++ render env.numToString pet.name
    html := reportHtml env pet.name body }

/-- A pet has both coordinates or neither. -/
def coordsPaired (p : Pet) : Prop := (p.lat = .null ↔ p.lng = .null)

instance (p : Pet) : Decidable (coordsPaired p) := by
  unfold coordsPaired
  infer_instance

/-! ## Sequences of pet requests -/

/-- A request to one of the two handlers that write pets. -/
inductive PetRequest where
  | create (userId : Nat) (body : PetBody)
  | update (userId : Nat) (idParam : String) (body : PetBody)
  deriving DecidableEq, Repr

/-- The body of a pet request. -/
def PetRequest.body : PetRequest → PetBody
  | .create _ body => body
  | .update _ _ body => body

/-- Run a pet request. -/
def PetRequest.run (env : Env) (w : World) : PetRequest → World × Response
  | .create userId body => postPets env w userId body
  | .update userId idParam body => putPetsId env w userId idParam body

/-- The worlds a sequence of pet requests leads to from a store without pets,
each request being one that `allowed` admits and running in an environment of
its own. -/
inductive Reachable (allowed : PetRequest → Prop) : World → Prop where
  | start (w : World) (h : w.store.pets = []) : Reachable allowed w
  | step (w : World) (env : Env) (r : PetRequest) (hw : Reachable allowed w)
      (hr : allowed r) : Reachable allowed (r.run env w).1

/-- Every request is admitted. -/
def anyRequest : PetRequest → Prop := fun _ => True

/-- A request that gives `lat` and `lng` together or gives neither. -/
def coordsTogether (r : PetRequest) : Prop :=
  (r.body.lat = .undefined ↔ r.body.lng = .undefined)

instance (r : PetRequest) : Decidable (coordsTogether r) := by
  unfold coordsTogether
  infer_instance

/-! ## The contract of the index engine -/

/-- The attribute of a document that a filter names. -/
def IndexDoc.attribute (d : IndexDoc) (a : String) : JsVal :=
  if a = "objectID" then .str d.objectID
  else if a = "name" then d.name
  else if a = "status" then d.status
  else if a = "location" then d.location
  else if a = "image_url" then d.image_url
  else .undefined

/-- The filter `attribute:value` of the index engine: a document passes when
the attribute named before the colon is the string after it. -/
def passesFilter (filters : String) (d : IndexDoc) : Bool :=
  d.attribute (String.mk (filters.data.takeWhile (fun c => c != ':'))) ==
    .str (String.mk ((filters.data.dropWhile (fun c => c != ':')).drop 1))

/-- The index engine answers a search, whatever its filter, point and radius,
with documents of the index that pass the filter of the search. -/
def EngineFilters (env : Env) : Prop :=
  ∀ docs q r, env.search docs q = some r →
    ∀ h ∈ r.hits.getD [], h ∈ docs ∧ passesFilter q.filters h = true

/-! ## Sample data -/

/-- A database that reads non-negative integer numbers and digit strings as
keys and rejects everything else. -/
def sampleReadKey : JsVal → Option Nat
  | .num (.fin false m (Int.ofNat e)) => some (m * 10 ^ e)
  | .str s => digitsVal1 10 s.data
  | _ => none

/-- The digits of the fraction `r / 10^k`, for `r < 10^k`, without the zeros
at the end. -/
def fractionDigits (r k : Nat) : List Char :=
  let ds := (toString r).data
  ((List.replicate (k - ds.length) '0' ++ ds).reverse.dropWhile (fun c => c == '0')).reverse

/-- A stand-in for the number to string conversion: decimal notation without
an exponent, which is what the runtime prints for numbers of ordinary size. -/
def sampleNumToString : JsNum → String
  | .nan => "NaN"
  | .inf false => "Infinity"
  | .inf true => "-Infinity"
  | .fin neg m (Int.ofNat k) =>
    (if neg && m != 0 then "-" else "") ++ toString (m * 10 ^ k)
  | .fin neg m (Int.negSucc k) =>
    (if neg && m != 0 then "-" else "") ++ toString (m / 10 ^ (k + 1)) ++
      (if m % 10 ^ (k + 1) = 0 then ""
       else "." ++ String.mk (fractionDigits (m % 10 ^ (k + 1)) (k + 1)))

/-- An environment in which nothing throws: the index engine returns the
documents that pass the filter, in the order of the index. -/
def sampleEnv : Env :=
  { readKey := sampleReadKey
    selectThrows := false
    writeThrows := false
    now := 1700000000
    cloudinaryCreds := false
    upload := fun _ => none
    saveObjectThrows := fun _ => false
    search := fun docs q => some { hits := some (docs.filter (passesFilter q.filters)) }
    resendKey := true
    fromEmail := none
    sendThrows := fun _ => false
    numToString := sampleNumToString }

/-- The sample environment with an index client that throws on every save. -/
def indexDownEnv : Env := { sampleEnv with saveObjectThrows := fun _ => true }

/-- The sample environment with a mail provider that throws on every send. -/
def mailDownEnv : Env := { sampleEnv with sendThrows := fun _ => true }

/-- The pet Rex of user 1. -/
def rex : Pet :=
  { id := 1
    userId := 1
    name := .str "Rex"
    location := .str "Coyoacan"
    lat := .num (.fin false 194 (-1))
    lng := .num (.fin true 991 (-1))
    imageUrl := .null
    status := .str "lost"
    createdAt := 1600000000 }

/-- A store with two users and the pet Rex. -/
def sampleStore : Store :=
  { pets := [rex]
    reports := []
    auth := [{ user_id := 1, email := .str "ana@example.com" },
             { user_id := 2, email := .str "luis@example.com" }]
    nextPetId := 2
    nextReportId := 1 }

/-- A world over the sample store with a configured index that holds Rex. -/
def sampleWorld : World :=
  { store := sampleStore
    index := some [indexObject (indexInput rex)]
    indexCalls := []
    outbox := []
    console := [] }

/-- A world without pets, with a configured and empty index. -/
def emptyWorld : World :=
  { store := { sampleStore with pets := [], nextPetId := 1 }
    index := some []
    indexCalls := []
    outbox := []
    console := [] }

/-- A body with every property missing. -/
def emptyBody : PetBody :=
  { name := .undefined, location := .undefined, status := .undefined
    lat := .undefined, lng := .undefined, imageDataURI := .undefined }

/-- The world `sampleWorld` with a second document in the index, of a pet
that has been found. -/
def mixedWorld : World :=
  { sampleWorld with
    index := some [indexObject (indexInput rex),
                   indexObject (indexInput { rex with id := 2, name := .str "Luna",
                                                      status := .str "found" })] }

/-! ## The conversion to a number -/

theorem overflowBound_eq : JsNum.overflowBound = 2 ^ 1024 - 2 ^ 970 := by
  norm_num [JsNum.overflowBound]

theorem jsNumber_samples :
    jsNumber (.str "") = .fin false 0 0 ∧
    jsNumber (.str "  ") = .fin false 0 0 ∧
    jsNumber (.str "19.4") = .fin false 194 (-1) ∧
    jsNumber (.str " -99.1 ") = .fin true 991 (-1) ∧
    jsNumber (.str "1e3") = .fin false 1 3 ∧
    jsNumber (.str "0x1F") = .fin false 31 0 ∧
    jsNumber (.str "Infinity") = .inf false ∧
    jsNumber (.str "abc") = .nan ∧
    jsNumber (.str "1,5") = .nan ∧
    jsNumber .undefined = .nan ∧
    jsNumber .null = .fin false 0 0 := by
  refine ⟨by decide, by decide, by decide, by decide, by decide, by decide, by decide,
    by decide, by decide, by decide, by decide⟩

/-! ## Lemmas on the store statements -/

theorem filter_of_find {α : Type} (q : α → Bool) (l : List α) (a : α)
    (h : l.find? q = some a) : ∃ rest, l.filter q = a :: rest := by
  induction l with
  | nil => simp at h
  | cons x xs ih =>
    by_cases hx : q x = true
    · simp [List.find?, hx] at h
      subst h
      exact ⟨xs.filter q, by simp [List.filter, hx]⟩
    · simp [List.find?, hx] at h
      obtain ⟨rest, hrest⟩ := ih h
      exact ⟨rest, by simp [List.filter, hx, hrest]⟩

theorem filter_of_absent (pets : List Pet) (k : Nat) (h : ∀ p ∈ pets, p.id ≠ k) :
    pets.filter (fun p => p.id == k) = [] := by
  rw [List.filter_eq_nil_iff]
  intro p hp
  simpa using h p hp

theorem selectOwner_found (env : Env) (st : Store) (id : JsVal) (k : Nat) (p : Pet)
    (hsel : env.selectThrows = false) (hkey : env.readKey id = some k)
    (hp : st.pets.find? (fun p => p.id == k) = some p) :
    ∃ rest, selectOwner env st id = some (p.userId :: rest) := by
  obtain ⟨rest, hrest⟩ := filter_of_find _ _ _ hp
  exact ⟨rest.map (fun p => p.userId), by simp [selectOwner, hsel, hkey, hrest]⟩

theorem selectOwner_absent (env : Env) (st : Store) (id : JsVal) (k : Nat)
    (hsel : env.selectThrows = false) (hkey : env.readKey id = some k)
    (hp : ∀ p ∈ st.pets, p.id ≠ k) :
    selectOwner env st id = some [] := by
  simp [selectOwner, hsel, hkey, filter_of_absent _ _ hp]

theorem selectPetContact_found (env : Env) (st : Store) (petId : JsVal) (k : Nat)
    (p : Pet) (a : AuthRow) (hsel : env.selectThrows = false)
    (hkey : env.readKey petId = some k)
    (hp : st.pets.find? (fun p => p.id == k) = some p)
    (ha : st.auth.find? (fun a => a.user_id == p.userId) = some a) :
    ∃ rest, selectPetContact env st petId =
      some ({ id := p.id, name := p.name, user_id := p.userId, email := a.email } :: rest) := by
  obtain ⟨ps, hps⟩ := filter_of_find _ _ _ hp
  obtain ⟨as, has⟩ := filter_of_find _ _ _ ha
  simp [selectPetContact, hsel, hkey, hps, has]

theorem filter_map_update (g : Pet → Pet) (hg : ∀ p, (g p).id = p.id) (k : Nat)
    (pets : List Pet) (stored : Pet)
    (h : pets.find? (fun p => p.id == k) = some stored) :
    ∃ rest, (pets.map (fun p => if p.id == k then g p else p)).filter
      (fun p => p.id == k) = g stored :: rest := by
  induction pets with
  | nil => simp at h
  | cons x xs ih =>
    by_cases hx : x.id = k
    · simp [List.find?, hx] at h
      subst h
      exact ⟨(xs.map (fun p => if p.id == k then g p else p)).filter (fun p => p.id == k),
        by simp [List.filter, hx, hg]⟩
    · have hb : (x.id == k) = false := by simp [hx]
      simp only [List.find?, hb] at h
      obtain ⟨rest, hrest⟩ := ih h
      exact ⟨rest, by simpa [List.filter, hx, hb] using hrest⟩

theorem updatePet_found (env : Env) (st : Store) (a b c d e f id : JsVal) (k : Nat)
    (stored : Pet) (hwrite : env.writeThrows = false) (hkey : env.readKey id = some k)
    (hfind : st.pets.find? (fun p => p.id == k) = some stored) :
    ∃ rest, updatePet env st a b c d e f id =
      some ({ st with pets := st.pets.map (fun p =>
                if p.id == k then updateRow p a b c d e f else p) },
            updateRow stored a b c d e f :: rest) := by
  obtain ⟨rest, hrest⟩ :=
    filter_map_update (fun p => updateRow p a b c d e f) (fun _ => rfl) k st.pets stored hfind
  refine ⟨rest, ?_⟩
  simp only [beq_iff_eq] at hrest
  simp [updatePet, hwrite, hkey, hrest]

theorem indexPet_frame (env : Env) (w : World) (pet : IndexInput) :
    (indexPet env w pet).1.store = w.store ∧
    (indexPet env w pet).1.console = w.console ∧
    (indexPet env w pet).1.outbox = w.outbox := by
  unfold indexPet
  cases w.index with
  | none => simp
  | some docs =>
    simp only
    split <;> simp

theorem indexPet_ok (env : Env) (w : World) (pet : IndexInput)
    (h : w.index = none ∨ env.saveObjectThrows (indexObject pet) = false) :
    (indexPet env w pet).2 = false := by
  unfold indexPet
  cases hidx : w.index with
  | none => simp
  | some docs =>
    rcases h with h | h
    · simp [hidx] at h
    · simp [h]

/-- The create handler once the name is given, the upload has not thrown and
the insert has not thrown: what remains is the call of `indexPet`. -/
theorem postPets_written (env : Env) (w : World) (userId : Nat) (body : PetBody)
    (imageUrl : JsVal) (hname : truthy body.name = true)
    (himg : createImage env body = some imageUrl) (hwrite : env.writeThrows = false) :
    postPets env w userId body =
      match indexPet env
        { w with store := { w.store with
            pets := w.store.pets ++ [createdPet env w.store userId body imageUrl],
            nextPetId := w.store.nextPetId + 1 } }
        (indexInput (createdPet env w.store userId body imageUrl)) with
      | (w1, true) => (w1.logged "pets_create_error:", internalError)
      | (w1, false) =>
        (w1, { status := 201, body := .pet (createdPet env w.store userId body imageUrl) }) := by
  simp [postPets, hname, himg, insertPet, hwrite, createdPet]

/-- The update handler once the owner lookup has found the caller's pet, the
upload has not thrown and the update has not thrown: what remains is the call
of `indexPet`. -/
theorem putPetsId_written (env : Env) (w : World) (userId : Nat) (idParam : String)
    (body : PetBody) (k : Nat) (stored : Pet) (imageUrl : JsVal)
    (hsel : env.selectThrows = false)
    (hkey : env.readKey (.num (jsNumber (.str idParam))) = some k)
    (hfind : w.store.pets.find? (fun p => p.id == k) = some stored)
    (howner : stored.userId = userId)
    (himg : updateImage env body = some imageUrl) (hwrite : env.writeThrows = false) :
    putPetsId env w userId idParam body =
      match indexPet env
        { w with store := { w.store with
            pets := w.store.pets.map (fun p =>
              if p.id == k then updatedPet p body imageUrl else p) } }
        (indexInput (updatedPet stored body imageUrl)) with
      | (w1, true) => (w1.logged "pets_update_error:", internalError)
      | (w1, false) =>
        (w1, { status := 200, body := .pet (updatedPet stored body imageUrl) }) := by
  obtain ⟨owners, hrows⟩ := selectOwner_found env w.store _ k stored hsel hkey hfind
  obtain ⟨rest, hupd⟩ := updatePet_found env w.store (orNull body.name)
    (orNull body.location) (orNull body.status) (coordParam body.lat) (coordParam body.lng)
    imageUrl _ k stored hwrite hkey hfind
  simp [putPetsId, hrows, howner, himg, hupd, updatedPet]

/-! ## Ownership and lookup failures leave everything as it was -/

/-- C3: when the ownership lookup of `PUT /pets/:id` is answered, a caller who
is not the owner of the pet gets 403 `forbidden` and an id without a pet gets
404 `not_found`, whatever the body, and the world after the request (every
row of the store, the index, the calls made on it) is the world before it. -/
theorem putPetsId_forbidden_or_not_found (env : Env) (w : World) (userId : Nat)
    (idParam : String) (body : PetBody) (k : Nat)
    (hsel : env.selectThrows = false)
    (hkey : env.readKey (.num (jsNumber (.str idParam))) = some k) :
    (∀ p, w.store.pets.find? (fun p => p.id == k) = some p → p.userId ≠ userId →
      putPetsId env w userId idParam body =
        (w, { status := 403, body := .error "forbidden" })) ∧
    ((∀ p ∈ w.store.pets, p.id ≠ k) →
      putPetsId env w userId idParam body =
        (w, { status := 404, body := .error "not_found" })) := by
  constructor
  · intro p hp hne
    obtain ⟨rest, hrows⟩ := selectOwner_found env w.store _ k p hsel hkey hp
    simp [putPetsId, hrows, hne]
  · intro habs
    simp [putPetsId, selectOwner_absent env w.store _ k hsel hkey habs]

theorem putPetsId_forbidden_or_not_found_witness :
    putPetsId sampleEnv sampleWorld 2 "1" { emptyBody with status := .str "found" } =
      (sampleWorld, { status := 403, body := .error "forbidden" }) ∧
    putPetsId sampleEnv sampleWorld 1 "7" { emptyBody with status := .str "found" } =
      (sampleWorld, { status := 404, body := .error "not_found" }) :=
  ⟨(putPetsId_forbidden_or_not_found sampleEnv sampleWorld 2 "1"
      { emptyBody with status := .str "found" } 1 (by decide) (by decide)).1 rex
      (by decide) (by decide),
   (putPetsId_forbidden_or_not_found sampleEnv sampleWorld 1 "7"
      { emptyBody with status := .str "found" } 7 (by decide) (by decide)).2 (by decide)⟩

/-- C9: a report whose required fields are present and whose `petId` the store
reads as a key that no pet has gets 404 `pet_not_found`, and the world after
the request is the world before it: no row is added to `reports` and nothing
is sent. -/
theorem postReports_unknown_pet (env : Env) (w : World) (body : ReportBody) (k : Nat)
    (hpet : truthy body.petId = true) (hname : truthy body.reporterName = true)
    (hphone : truthy body.reporterPhone = true)
    (hsel : env.selectThrows = false) (hkey : env.readKey body.petId = some k)
    (habsent : ∀ p ∈ w.store.pets, p.id ≠ k) :
    postReports env w body = (w, { status := 404, body := .error "pet_not_found" }) := by
  simp [postReports, hpet, hname, hphone, selectPetContact, hsel, hkey,
    filter_of_absent _ _ habsent]

theorem postReports_unknown_pet_witness :
    postReports sampleEnv sampleWorld
      { petId := .num (JsNum.ofNat 7), reporterName := .str "Luis",
        reporterPhone := .str "555-0101", location := .undefined, details := .undefined } =
      (sampleWorld, { status := 404, body := .error "pet_not_found" }) :=
  postReports_unknown_pet sampleEnv sampleWorld _ 7 (by decide) (by decide) (by decide)
    (by decide) (by decide) (by decide)

/-! ## The index document and the proximity search -/

theorem notNullish_iff (v : JsVal) : notNullish v = true ↔ v ≠ .null ∧ v ≠ .undefined := by
  cases v <;> simp [notNullish]

/-- C10: on a configured index `indexPet` calls `saveObject` once, with a
document whose `objectID` is the string form of the pet id, whose name, status
and location are those of the pet, and which has a geo-point exactly when
`lat` and `lng` are both neither `null` nor `undefined`; the geo-point holds
the two coordinates as numbers, so a coordinate 0 gives a geo-point as any
other number does. When the save does not throw the index holds that document
under that `objectID` and no other one. -/
theorem indexPet_document (env : Env) (w : World) (pet : IndexInput)
    (docs : List IndexDoc) (hidx : w.index = some docs) :
    (indexPet env w pet).1.indexCalls = w.indexCalls ++ [.saveObject (indexObject pet)] ∧
    (env.saveObjectThrows (indexObject pet) = false →
      (indexPet env w pet).1.index = some (saveObject docs (indexObject pet)) ∧
      indexObject pet ∈ saveObject docs (indexObject pet) ∧
      ∀ d ∈ saveObject docs (indexObject pet),
        d.objectID = (indexObject pet).objectID → d = indexObject pet) ∧
    (indexObject pet).objectID = toString pet.id ∧
    (indexObject pet).name = pet.name ∧
    (indexObject pet).status = pet.status ∧
    (indexObject pet).location = pet.location ∧
    ((indexObject pet)._geoloc.isSome = true ↔
      (pet.lat ≠ .null ∧ pet.lat ≠ .undefined) ∧ (pet.lng ≠ .null ∧ pet.lng ≠ .undefined)) ∧
    ((indexObject pet)._geoloc.isSome = true →
      (indexObject pet)._geoloc = some { lat := jsNumber pet.lat, lng := jsNumber pet.lng }) ∧
    (∀ x y, pet.lat = .num x → pet.lng = .num y →
      (indexObject pet)._geoloc = some { lat := x, lng := y }) := by
  refine ⟨?_, ?_, rfl, rfl, rfl, rfl, ?_, ?_, ?_⟩
  · unfold indexPet
    simp only [hidx]
    split <;> rfl
  · intro hok
    refine ⟨?_, ?_, ?_⟩
    · simp [indexPet, hidx, hok]
    · simp [saveObject]
    · intro d hd hid
      simp only [saveObject, List.mem_append, List.mem_filter, List.mem_singleton] at hd
      rcases hd with ⟨_, hne⟩ | rfl
      · simp [hid] at hne
      · rfl
  · rw [← notNullish_iff, ← notNullish_iff]
    unfold indexObject
    cases h1 : notNullish pet.lat <;> cases h2 : notNullish pet.lng <;> simp
  · unfold indexObject
    cases h1 : notNullish pet.lat <;> cases h2 : notNullish pet.lng <;> simp
  · intro x y hx hy
    simp [indexObject, hx, hy, notNullish, jsNumber]

theorem indexPet_document_witness :
    (indexPet sampleEnv emptyWorld
        (indexInput { rex with lat := .num (.fin false 0 0) })).1.index =
      some [{ objectID := "1", name := .str "Rex", status := .str "lost",
              location := .str "Coyoacan", image_url := .undefined,
              _geoloc := some { lat := .fin false 0 0, lng := .fin true 991 (-1) } }] := by
  have h := (indexPet_document sampleEnv emptyWorld
    (indexInput { rex with lat := .num (.fin false 0 0) }) [] rfl).2.1 rfl
  rw [h.1]
  decide

theorem passesFilter_status_lost (d : IndexDoc) :
    passesFilter "status:lost" d = (d.status == .str "lost") := by
  have h1 : String.mk ("status:lost".data.takeWhile (fun c => c != ':')) = "status" := by
    decide
  have h2 : String.mk (("status:lost".data.dropWhile (fun c => c != ':')).drop 1) = "lost" := by
    decide
  have h3 : d.attribute "status" = d.status := by
    unfold IndexDoc.attribute
    rw [if_neg (by decide), if_neg (by decide), if_pos rfl]
  unfold passesFilter
  rw [h1, h2, h3]

/-- C8: without a configured index `searchNearby` resolves to no hits and
makes no call. With one it makes a single call: a search with the empty text,
the filter `status:lost`, `aroundLatLng` made of the latitude and the
longitude it was given, in that order, and `aroundRadius` the radius it was
given; it resolves to what the index answers, unchanged. `GET /pets-near`
with finite coordinates calls it with `Number(lat)`, `Number(lng)` and
`Number(radiusKm ?? 2) * 1000` and responds 200 with those hits in that
order. So with an index engine that answers a search with documents of the
index that pass the filter of the search, every hit that `searchNearby` or
`GET /pets-near` returns is a document of the index whose status is `lost`,
never `found`. -/
theorem searchNearby_lost_only (env : Env) (w : World) (lat lng : JsNum)
    (radiusMeters : Option JsNum) (query : NearQuery) (hengine : EngineFilters env) :
    (w.index = none →
      searchNearby env w lat lng radiusMeters = (w, some { hits := some [] })) ∧
    (∀ docs, w.index = some docs →
      searchNearby env w lat lng radiusMeters =
        ({ w with indexCalls := w.indexCalls ++
             [.search { query := ""
                        aroundLatLng := env.numToString lat ++ ", " ++ env.numToString lng
                        aroundRadius := radiusMeters.getD (JsNum.ofNat 3000)
                        filters := "status:lost" }] },
         env.search docs
           { query := ""
             aroundLatLng := env.numToString lat ++ ", " ++ env.numToString lng
             aroundRadius := radiusMeters.getD (JsNum.ofNat 3000)
             filters := "status:lost" })) ∧
    (nearbyQuery env lat lng radiusMeters).query = "" ∧
    (nearbyQuery env lat lng radiusMeters).filters = "status:lost" ∧
    (nearbyQuery env lat lng radiusMeters).aroundLatLng =
      env.numToString lat ++ ", " ++ env.numToString lng ∧
    (nearbyQuery env lat lng radiusMeters).aroundRadius =
      radiusMeters.getD (JsNum.ofNat 3000) ∧
    (∀ r, (searchNearby env w lat lng radiusMeters).2 = some r →
      ∀ h ∈ r.hits.getD [],
        h.status = .str "lost" ∧ h.status ≠ .str "found" ∧ ∀ docs, w.index = some docs → h ∈ docs) ∧
    ((jsNumber query.lat).isFinite = true → (jsNumber query.lng).isFinite = true →
      ∀ r, (searchNearby env w (jsNumber query.lat) (jsNumber query.lng)
          (some (jsNumber (nullish query.radiusKm (.num (JsNum.ofNat 2)))).mul1000)).2 = some r →
      getPetsNear env w query =
        ((searchNearby env w (jsNumber query.lat) (jsNumber query.lng)
            (some (jsNumber (nullish query.radiusKm (.num (JsNum.ofNat 2)))).mul1000)).1,
         { status := 200, body := .hits (r.hits.getD []) })) ∧
    (∀ hs, (getPetsNear env w query).2.body = .hits hs →
      ∀ h ∈ hs, h.status = .str "lost" ∧ h.status ≠ .str "found") := by
  have hsearch : ∀ la ln ra r, (searchNearby env w la ln ra).2 = some r →
      ∀ h ∈ r.hits.getD [],
        h.status = .str "lost" ∧ h.status ≠ .str "found" ∧
          ∀ docs, w.index = some docs → h ∈ docs := by
    intro la ln ra r hr h hh
    unfold searchNearby at hr
    cases hidx : w.index with
    | none =>
      simp [hidx] at hr
      subst hr
      simp at hh
    | some docs =>
      simp [hidx] at hr
      obtain ⟨hmem, hpass⟩ := hengine docs _ r hr h hh
      have hfil : (nearbyQuery env la ln ra).filters = "status:lost" := rfl
      rw [hfil, passesFilter_status_lost] at hpass
      have hst : h.status = .str "lost" := by simpa using hpass
      refine ⟨hst, ?_, ?_⟩
      · rw [hst]; decide
      · intro docs1 hd
        cases hd
        exact hmem
  refine ⟨?_, ?_, rfl, rfl, rfl, rfl, hsearch lat lng radiusMeters, ?_, ?_⟩
  · intro hidx
    simp [searchNearby, hidx]
  · intro docs hidx
    simp [searchNearby, hidx, nearbyQuery]
  · intro hlat hlng r hr
    unfold getPetsNear
    simp only [hlat, hlng]
    cases hs : searchNearby env w (jsNumber query.lat) (jsNumber query.lng)
        (some (jsNumber (nullish query.radiusKm (.num (JsNum.ofNat 2)))).mul1000) with
    | mk w1 res =>
      rw [hs] at hr
      simp at hr
      subst hr
      simp
  · intro hs hbody h hh
    unfold getPetsNear at hbody
    by_cases hfin : (!(jsNumber query.lat).isFinite || !(jsNumber query.lng).isFinite) = true
    · simp [hfin] at hbody
    · simp only [hfin] at hbody
      cases hsn : searchNearby env w (jsNumber query.lat) (jsNumber query.lng)
          (some (jsNumber (nullish query.radiusKm (.num (JsNum.ofNat 2)))).mul1000) with
      | mk w1 res =>
        rw [hsn] at hbody
        cases res with
        | none => simp [internalError] at hbody
        | some r =>
          simp at hbody
          subst hbody
          have h3 := hsearch _ _ _ r (by rw [hsn]) h hh
          exact ⟨h3.1, h3.2.1⟩

theorem sampleEnv_filters : EngineFilters sampleEnv := by
  intro docs q r hr h hh
  simp [sampleEnv] at hr
  subst hr
  simpa using hh

theorem searchNearby_lost_only_witness :
    EngineFilters sampleEnv ∧
    getPetsNear sampleEnv mixedWorld
        { lat := .str "19.4", lng := .str "-99.1", radiusKm := .undefined } =
      ({ mixedWorld with
          indexCalls := [.search { query := "", aroundLatLng := "19.4, -99.1",
                                   aroundRadius := .fin false 2 3,
                                   filters := "status:lost" }] },
       { status := 200, body := .hits [indexObject (indexInput rex)] }) ∧
    (indexObject (indexInput rex)).status = .str "lost" ∧
    (indexObject (indexInput rex)).status ≠ .str "found" :=
  ⟨sampleEnv_filters, by decide,
   (searchNearby_lost_only sampleEnv mixedWorld (.fin false 194 (-1)) (.fin true 991 (-1))
      none { lat := .str "19.4", lng := .str "-99.1", radiusKm := .undefined }
      sampleEnv_filters).2.2.2.2.2.2.2.2 [indexObject (indexInput rex)] (by decide)
      (indexObject (indexInput rex)) (by decide)⟩

/-! ## Validation of the search point -/

theorem getPetsNear_not_finite (env : Env) (w : World) (query : NearQuery)
    (h : (jsNumber query.lat).isFinite = false ∨ (jsNumber query.lng).isFinite = false) :
    getPetsNear env w query = (w, { status := 400, body := .error "invalid_lat_lng" }) := by
  unfold getPetsNear
  rcases h with h | h <;> simp [h]

/-- C7, at the request `GET /pets-near?lat=&lng=0`: `Number("")` is 0, so the
empty `lat` passes the finiteness test, the index is searched around the
point 0, 0 and the response is 200. -/
theorem getPetsNear_empty_lat :
    jsNumber (.str "") = .fin false 0 0 ∧
    (getPetsNear sampleEnv sampleWorld
        { lat := .str "", lng := .str "0", radiusKm := .undefined }).2.status = 200 ∧
    (getPetsNear sampleEnv sampleWorld
        { lat := .str "", lng := .str "0", radiusKm := .undefined }).1.indexCalls =
      [.search { query := "", aroundLatLng := "0, 0", aroundRadius := .fin false 2 3,
                 filters := "status:lost" }] := by
  refine ⟨by decide, by decide, by decide⟩

/-! ## A failing index client or mail provider -/

theorem updated_mem (pets : List Pet) (k : Nat) (stored : Pet) (g : Pet → Pet)
    (hfind : pets.find? (fun p => p.id == k) = some stored) :
    g stored ∈ pets.map (fun p => if p.id == k then g p else p) := by
  have hmem := List.mem_of_find?_eq_some hfind
  have hid := List.find?_some hfind
  exact List.mem_map.mpr ⟨stored, hmem, by simp [hid]⟩

/-- C1, at two requests with an index client that throws: the create of Rex
and the owner's update of Rex to `found` are both answered 500
`internal_error`, while the store holds the written pet. -/
theorem index_failure_surfaces :
    postPets indexDownEnv emptyWorld 1 { emptyBody with name := .str "Rex" } =
      ({ emptyWorld with
          store := { emptyWorld.store with
            pets := [createdPet indexDownEnv emptyWorld.store 1
                      { emptyBody with name := .str "Rex" } .null],
            nextPetId := 2 },
          indexCalls := [.saveObject (indexObject (indexInput
            (createdPet indexDownEnv emptyWorld.store 1
              { emptyBody with name := .str "Rex" } .null)))],
          console := ["pets_create_error:"] },
       { status := 500, body := .error "internal_error" }) ∧
    (putPetsId indexDownEnv sampleWorld 1 "1" { emptyBody with status := .str "found" }).2 =
      { status := 500, body := .error "internal_error" } ∧
    (putPetsId indexDownEnv sampleWorld 1 "1"
        { emptyBody with status := .str "found" }).1.store.pets =
      [{ rex with status := .str "found" }] := by
  refine ⟨by decide, by decide, by decide⟩

/-- C1 (amended): once the store write of `POST /pets` or of an owner's
`PUT /pets/:id` has succeeded on a configured index, a `saveObject` that
throws makes the handler answer 500 `internal_error` and log the failure; the
written pet stays in the store and the index keeps its documents. A
`saveObject` that does not throw gives 201 (create) or 200 (update) with the
written pet. -/
theorem pet_write_then_index (env : Env) (w : World) (userId : Nat) (body : PetBody)
    (idParam : String) (k : Nat) (stored : Pet) (imageUrl : JsVal) (docs : List IndexDoc)
    (hwrite : env.writeThrows = false) (hidx : w.index = some docs) :
    (truthy body.name = true → createImage env body = some imageUrl →
      (env.saveObjectThrows
          (indexObject (indexInput (createdPet env w.store userId body imageUrl))) = true →
        (postPets env w userId body).2 = { status := 500, body := .error "internal_error" } ∧
        (postPets env w userId body).1.store.pets =
          w.store.pets ++ [createdPet env w.store userId body imageUrl] ∧
        (postPets env w userId body).1.index = some docs ∧
        (postPets env w userId body).1.console = w.console ++ ["pets_create_error:"]) ∧
      (env.saveObjectThrows
          (indexObject (indexInput (createdPet env w.store userId body imageUrl))) = false →
        (postPets env w userId body).2 =
          { status := 201, body := .pet (createdPet env w.store userId body imageUrl) } ∧
        (postPets env w userId body).1.store.pets =
          w.store.pets ++ [createdPet env w.store userId body imageUrl])) ∧
    (env.selectThrows = false →
      env.readKey (.num (jsNumber (.str idParam))) = some k →
      w.store.pets.find? (fun p => p.id == k) = some stored →
      stored.userId = userId → updateImage env body = some imageUrl →
      (env.saveObjectThrows
          (indexObject (indexInput (updatedPet stored body imageUrl))) = true →
        (putPetsId env w userId idParam body).2 =
          { status := 500, body := .error "internal_error" } ∧
        (putPetsId env w userId idParam body).1.store.pets =
          w.store.pets.map (fun p => if p.id == k then updatedPet p body imageUrl else p) ∧
        updatedPet stored body imageUrl ∈ (putPetsId env w userId idParam body).1.store.pets ∧
        (putPetsId env w userId idParam body).1.index = some docs ∧
        (putPetsId env w userId idParam body).1.console =
          w.console ++ ["pets_update_error:"]) ∧
      (env.saveObjectThrows
          (indexObject (indexInput (updatedPet stored body imageUrl))) = false →
        (putPetsId env w userId idParam body).2 =
          { status := 200, body := .pet (updatedPet stored body imageUrl) } ∧
        updatedPet stored body imageUrl ∈
          (putPetsId env w userId idParam body).1.store.pets)) := by
  constructor
  · intro hname himg
    rw [postPets_written env w userId body imageUrl hname himg hwrite]
    constructor
    · intro hthrow
      simp [indexPet, hidx, hthrow, World.logged, internalError]
    · intro hok
      simp [indexPet, hidx, hok]
  · intro hsel hkey hfind howner himg
    rw [putPetsId_written env w userId idParam body k stored imageUrl hsel hkey hfind howner
      himg hwrite]
    have hmem := updated_mem w.store.pets k stored (fun p => updatedPet p body imageUrl) hfind
    constructor
    · intro hthrow
      simp only [beq_iff_eq] at hmem
      simp [indexPet, hidx, hthrow, World.logged, internalError, hmem]
    · intro hok
      simp only [beq_iff_eq] at hmem
      simp [indexPet, hidx, hok, hmem]

theorem pet_write_then_index_witness :
    ((postPets indexDownEnv emptyWorld 1 { emptyBody with name := .str "Rex" }).2 =
        { status := 500, body := .error "internal_error" } ∧
      (postPets indexDownEnv emptyWorld 1 { emptyBody with name := .str "Rex" }).1.store.pets =
        emptyWorld.store.pets ++
          [createdPet indexDownEnv emptyWorld.store 1
            { emptyBody with name := .str "Rex" } .null] ∧
      (postPets indexDownEnv emptyWorld 1 { emptyBody with name := .str "Rex" }).1.index =
        some [] ∧
      (postPets indexDownEnv emptyWorld 1 { emptyBody with name := .str "Rex" }).1.console =
        emptyWorld.console ++ ["pets_create_error:"]) ∧
    ((putPetsId sampleEnv sampleWorld 1 "1" { emptyBody with status := .str "found" }).2 =
        { status := 200, body := .pet (updatedPet rex
            { emptyBody with status := .str "found" } .null) } ∧
      updatedPet rex { emptyBody with status := .str "found" } .null ∈
        (putPetsId sampleEnv sampleWorld 1 "1"
          { emptyBody with status := .str "found" }).1.store.pets) :=
  ⟨((pet_write_then_index indexDownEnv emptyWorld 1 { emptyBody with name := .str "Rex" }
      "1" 1 rex .null [] (by decide) (by decide)).1 (by decide) (by decide)).1 (by decide),
   ((pet_write_then_index sampleEnv sampleWorld 1 { emptyBody with status := .str "found" }
      "1" 1 rex .null _ (by decide) rfl).2 (by decide) (by decide) (by decide) (by decide)
      (by decide)).2 (by decide)⟩

/-- C4, at a report on Rex with a mail provider that throws: the request is
answered 500 `internal_error`, while the report is in the store. -/
theorem mail_failure_surfaces :
    (postReports mailDownEnv sampleWorld
        { petId := .num (JsNum.ofNat 1), reporterName := .str "Luis",
          reporterPhone := .str "555-0101", location := .undefined,
          details := .undefined }).2 =
      { status := 500, body := .error "internal_error" } ∧
    (postReports mailDownEnv sampleWorld
        { petId := .num (JsNum.ofNat 1), reporterName := .str "Luis",
          reporterPhone := .str "555-0101", location := .undefined,
          details := .undefined }).1.store.reports =
      [{ id := 1, petId := 1, reporterName := .str "Luis", reporterPhone := .str "555-0101",
         location := .null, details := .null, createdAt := 1700000000 }] := by
  refine ⟨by decide, by decide⟩

/-- C4 (amended): for a report with its required fields, on a pet that the
lookup finds with its owner's address, once the insert has succeeded: a mail
send that throws makes the handler answer 500 `internal_error` and log the
failure, the report stays in the store; with no mail key (development mode)
or a send that does not throw the answer is 201 with the report. -/
theorem report_write_then_mail (env : Env) (w : World) (body : ReportBody) (k : Nat)
    (p : Pet) (a : AuthRow)
    (hpet : truthy body.petId = true) (hname : truthy body.reporterName = true)
    (hphone : truthy body.reporterPhone = true)
    (hsel : env.selectThrows = false) (hkey : env.readKey body.petId = some k)
    (hfind : w.store.pets.find? (fun p => p.id == k) = some p)
    (hauth : w.store.auth.find? (fun a => a.user_id == p.userId) = some a)
    (hwrite : env.writeThrows = false) :
    (env.resendKey = true →
      env.sendThrows (reportMail env
        { id := p.id, name := p.name, user_id := p.userId, email := a.email } body) = true →
      (postReports env w body).2 = { status := 500, body := .error "internal_error" } ∧
      (postReports env w body).1.store.reports =
        w.store.reports ++ [newReport env w.store k body.reporterName body.reporterPhone
          (orNull body.location) (orNull body.details)] ∧
      (postReports env w body).1.outbox = w.outbox ∧
      (postReports env w body).1.console = w.console ++ ["report_create_error:"]) ∧
    ((env.resendKey = false ∨
      env.sendThrows (reportMail env
        { id := p.id, name := p.name, user_id := p.userId, email := a.email } body) = false) →
      (postReports env w body).2 =
        { status := 201,
          body := .report (newReport env w.store k body.reporterName body.reporterPhone
            (orNull body.location) (orNull body.details)) } ∧
      (postReports env w body).1.store.reports =
        w.store.reports ++ [newReport env w.store k body.reporterName body.reporterPhone
          (orNull body.location) (orNull body.details)]) := by
  obtain ⟨rest, hrows⟩ := selectPetContact_found env w.store body.petId k p a hsel hkey hfind hauth
  constructor
  · intro hres hthrow
    simp only [reportMail] at hthrow
    simp [postReports, hpet, hname, hphone, hrows, insertReport, hwrite, hkey,
      sendReportEmail, hres, hthrow, World.logged, internalError]
  · intro hok
    rcases hok with hres | hsend
    · simp [postReports, hpet, hname, hphone, hrows, insertReport, hwrite, hkey,
        sendReportEmail, hres, World.logged]
    · simp only [reportMail] at hsend
      cases hres : env.resendKey
      · simp [postReports, hpet, hname, hphone, hrows, insertReport, hwrite, hkey,
          sendReportEmail, hres, World.logged]
      · simp [postReports, hpet, hname, hphone, hrows, insertReport, hwrite, hkey,
          sendReportEmail, hres, hsend]

theorem report_write_then_mail_witness :
    (postReports mailDownEnv sampleWorld
        { petId := .num (JsNum.ofNat 1), reporterName := .str "Luis",
          reporterPhone := .str "555-0101", location := .undefined,
          details := .undefined }).2 =
      { status := 500, body := .error "internal_error" } ∧
    (postReports mailDownEnv sampleWorld
        { petId := .num (JsNum.ofNat 1), reporterName := .str "Luis",
          reporterPhone := .str "555-0101", location := .undefined,
          details := .undefined }).1.store.reports =
      sampleWorld.store.reports ++ [newReport mailDownEnv sampleWorld.store 1 (.str "Luis")
        (.str "555-0101") (orNull .undefined) (orNull .undefined)] ∧
    (postReports mailDownEnv sampleWorld
        { petId := .num (JsNum.ofNat 1), reporterName := .str "Luis",
          reporterPhone := .str "555-0101", location := .undefined,
          details := .undefined }).1.outbox = sampleWorld.outbox ∧
    (postReports mailDownEnv sampleWorld
        { petId := .num (JsNum.ofNat 1), reporterName := .str "Luis",
          reporterPhone := .str "555-0101", location := .undefined,
          details := .undefined }).1.console =
      sampleWorld.console ++ ["report_create_error:"] :=
  (report_write_then_mail mailDownEnv sampleWorld
    { petId := .num (JsNum.ofNat 1), reporterName := .str "Luis",
      reporterPhone := .str "555-0101", location := .undefined, details := .undefined }
    1 rex { user_id := 1, email := .str "ana@example.com" }
    (by decide) (by decide) (by decide) (by decide) (by decide) (by decide) (by decide)
    (by decide)).1 (by decide) (by decide)

/-! ## Updating some of the fields of a pet -/

theorem coalesce_orNull (v stored : JsVal) :
    coalesce (orNull v) stored = if notNullish v then v else stored := by
  cases v <;> simp [coalesce, orNull, sqlArg, notNullish]

theorem coalesce_coordParam (v stored : JsVal) :
    coalesce (coordParam v) stored =
      if v = .undefined then stored else .num (jsNumber v) := by
  by_cases h : v = .undefined <;> simp [coalesce, coordParam, sqlArg, orNull, h]

/-- C2, at the owner's update of Rex with the body `{name: null, lat: null}`:
the answer is 200 with Rex under his old name, although the body has the key
`name`, and with latitude 0 in place of 19.4, although the body gives no
latitude other than `null`. -/
theorem update_null_name_and_lat :
    putPetsId sampleEnv sampleWorld 1 "1" { emptyBody with name := .null, lat := .null } =
      ({ sampleWorld with
          store := { sampleStore with pets := [{ rex with lat := .num (.fin false 0 0) }] },
          index := some [indexObject (indexInput { rex with lat := .num (.fin false 0 0) })],
          indexCalls := [.saveObject
            (indexObject (indexInput { rex with lat := .num (.fin false 0 0) }))] },
       { status := 200, body := .pet { rex with lat := .num (.fin false 0 0) } }) ∧
    rex.name = .str "Rex" ∧ rex.lat = .num (.fin false 194 (-1)) := by
  refine ⟨by decide, by decide, by decide⟩

/-- C2 (amended): when the owner's `PUT /pets/:id` finds the pet and neither
the upload nor the update throws, every row with that id is rewritten and the
first of them, `stored`, becomes the pet described here, which is also the pet
returned with 200 when the index save does not throw. Of `name`, `location`
and `status`, a value that is neither missing nor `null` replaces the stored
one, a missing or `null` one keeps it. Of `lat` and `lng`, a number replaces
the stored one, any other value that is neither missing nor `null` replaces it
by its conversion to a number, a missing one keeps it. Id, owner and creation
time stay. A body that holds only `status: "found"` changes the status and
nothing else. -/
theorem putPetsId_field_semantics (env : Env) (w : World) (userId : Nat) (idParam : String)
    (body : PetBody) (k : Nat) (stored : Pet) (imageUrl : JsVal)
    (hsel : env.selectThrows = false)
    (hkey : env.readKey (.num (jsNumber (.str idParam))) = some k)
    (hfind : w.store.pets.find? (fun p => p.id == k) = some stored)
    (howner : stored.userId = userId)
    (himg : updateImage env body = some imageUrl) (hwrite : env.writeThrows = false) :
    (putPetsId env w userId idParam body).1.store.pets =
      w.store.pets.map (fun p => if p.id == k then updatedPet p body imageUrl else p) ∧
    updatedPet stored body imageUrl ∈ (putPetsId env w userId idParam body).1.store.pets ∧
    ((w.index = none ∨
      env.saveObjectThrows (indexObject (indexInput (updatedPet stored body imageUrl))) = false) →
      (putPetsId env w userId idParam body).2 =
        { status := 200, body := .pet (updatedPet stored body imageUrl) }) ∧
    (updatedPet stored body imageUrl).name =
      (if notNullish body.name then body.name else stored.name) ∧
    (updatedPet stored body imageUrl).location =
      (if notNullish body.location then body.location else stored.location) ∧
    (updatedPet stored body imageUrl).status =
      (if notNullish body.status then body.status else stored.status) ∧
    (body.lat = .undefined → (updatedPet stored body imageUrl).lat = stored.lat) ∧
    (body.lng = .undefined → (updatedPet stored body imageUrl).lng = stored.lng) ∧
    (∀ x, body.lat = .num x → (updatedPet stored body imageUrl).lat = .num x) ∧
    (∀ y, body.lng = .num y → (updatedPet stored body imageUrl).lng = .num y) ∧
    (notNullish body.lat = true →
      (updatedPet stored body imageUrl).lat = .num (jsNumber body.lat)) ∧
    (notNullish body.lng = true →
      (updatedPet stored body imageUrl).lng = .num (jsNumber body.lng)) ∧
    (updatedPet stored body imageUrl).id = stored.id ∧
    (updatedPet stored body imageUrl).userId = stored.userId ∧
    (updatedPet stored body imageUrl).createdAt = stored.createdAt ∧
    (body = { emptyBody with status := .str "found" } →
      updatedPet stored body imageUrl = { stored with status := .str "found" }) := by
  have hrun := putPetsId_written env w userId idParam body k stored imageUrl hsel hkey hfind
    howner himg hwrite
  have hmem := updated_mem w.store.pets k stored (fun p => updatedPet p body imageUrl) hfind
  have hframe := indexPet_frame env
    { w with store := { w.store with
        pets := w.store.pets.map (fun p =>
          if p.id == k then updatedPet p body imageUrl else p) } }
    (indexInput (updatedPet stored body imageUrl))
  have hpets : (putPetsId env w userId idParam body).1.store.pets =
      w.store.pets.map (fun p => if p.id == k then updatedPet p body imageUrl else p) := by
    rw [hrun]
    split
    · next w1 heq =>
      rw [heq] at hframe
      have h1 := hframe.1
      simp only at h1
      simp [World.logged, h1]
    · next w1 heq =>
      rw [heq] at hframe
      have h1 := hframe.1
      simp only at h1
      simp [h1]
  refine ⟨hpets, ?_, ?_, ?_, ?_, ?_, ?_, ?_, ?_, ?_, ?_, ?_, rfl, rfl, rfl, ?_⟩
  · rw [hpets]; exact hmem
  · intro hok
    have h2 := indexPet_ok env
      { w with store := { w.store with
          pets := w.store.pets.map (fun p =>
            if p.id == k then updatedPet p body imageUrl else p) } }
      (indexInput (updatedPet stored body imageUrl)) hok
    rw [hrun]
    split
    · next w1 heq => rw [heq] at h2; simp at h2
    · rfl
  · simp [updatedPet, updateRow, coalesce_orNull]
  · simp [updatedPet, updateRow, coalesce_orNull]
  · simp [updatedPet, updateRow, coalesce_orNull]
  · intro h; simp [updatedPet, updateRow, coalesce_coordParam, h]
  · intro h; simp [updatedPet, updateRow, coalesce_coordParam, h]
  · intro x h; simp [updatedPet, updateRow, coalesce_coordParam, h, jsNumber]
  · intro y h; simp [updatedPet, updateRow, coalesce_coordParam, h, jsNumber]
  · intro h
    have hne : body.lat ≠ .undefined := by intro hu; simp [hu, notNullish] at h
    simp [updatedPet, updateRow, coalesce_coordParam, hne]
  · intro h
    have hne : body.lng ≠ .undefined := by intro hu; simp [hu, notNullish] at h
    simp [updatedPet, updateRow, coalesce_coordParam, hne]
  · intro hb
    subst hb
    have hi : imageUrl = .null := by
      simp [updateImage, emptyBody, truthy] at himg
      exact himg.symm
    subst hi
    simp [updatedPet, updateRow, coalesce, sqlArg, orNull, coordParam, emptyBody]

theorem putPetsId_field_semantics_witness :
    (putPetsId sampleEnv sampleWorld 1 "1" { emptyBody with status := .str "found" }).2 =
      { status := 200, body := .pet { rex with status := .str "found" } } ∧
    (putPetsId sampleEnv sampleWorld 1 "1"
        { emptyBody with status := .str "found" }).1.store.pets =
      [{ rex with status := .str "found" }] := by
  have h := putPetsId_field_semantics sampleEnv sampleWorld 1 "1"
    { emptyBody with status := .str "found" } 1 rex .null
    (by decide) (by decide) (by decide) (by decide) (by decide) (by decide)
  have hpet := h.2.2.2.2.2.2.2.2.2.2.2.2.2.2.2 rfl
  refine ⟨?_, ?_⟩
  · rw [← hpet]; exact h.2.2.1 (Or.inr (by decide))
  · rw [h.1]; decide

/-! ## Invariants of the stored pets -/

theorem updatePet_store (env : Env) (st st1 : Store) (a b c d e f id : JsVal)
    (rows : List Pet) (h : updatePet env st a b c d e f id = some (st1, rows)) :
    ∃ k, st1.pets = st.pets.map (fun p => if p.id == k then updateRow p a b c d e f else p) := by
  unfold updatePet at h
  cases hw : env.writeThrows
  · cases hk : env.readKey id with
    | none => simp [hw, hk] at h
    | some k =>
      simp [hw, hk] at h
      exact ⟨k, by rw [← h.1]; simp⟩
  · simp [hw] at h

theorem postPets_pets (env : Env) (w : World) (userId : Nat) (body : PetBody) :
    (postPets env w userId body).1.store.pets = w.store.pets ∨
    ∃ img, (postPets env w userId body).1.store.pets =
      w.store.pets ++ [createdPet env w.store userId body img] := by
  by_cases hname : truthy body.name = true
  · cases himg : createImage env body with
    | none => left; simp [postPets, hname, himg, World.logged]
    | some img =>
      cases hwrite : env.writeThrows
      · right
        refine ⟨img, ?_⟩
        have hframe := indexPet_frame env
          { w with store := { w.store with
              pets := w.store.pets ++ [createdPet env w.store userId body img],
              nextPetId := w.store.nextPetId + 1 } }
          (indexInput (createdPet env w.store userId body img))
        rw [postPets_written env w userId body img hname himg hwrite]
        split
        · next w1 heq =>
          rw [heq] at hframe
          have h1 := hframe.1
          simp only at h1
          simp [World.logged, h1]
        · next w1 heq =>
          rw [heq] at hframe
          have h1 := hframe.1
          simp only at h1
          simp [h1]
      · left; simp [postPets, hname, himg, insertPet, hwrite, World.logged]
  · left; simp [postPets, hname]

theorem putPetsId_pets (env : Env) (w : World) (userId : Nat) (idParam : String)
    (body : PetBody) :
    (putPetsId env w userId idParam body).1.store.pets = w.store.pets ∨
    ∃ k img, (putPetsId env w userId idParam body).1.store.pets =
      w.store.pets.map (fun p => if p.id == k then updatedPet p body img else p) := by
  unfold putPetsId
  simp only
  split
  · left; rfl
  · left; rfl
  · split
    · left; rfl
    · split
      · left; rfl
      · next img _ =>
        split
        · left; rfl
        · next st hupd =>
          right
          obtain ⟨k, hk⟩ := updatePet_store _ _ _ _ _ _ _ _ _ _ _ hupd
          exact ⟨k, img, by simpa [World.logged, updatedPet] using hk⟩
        · next st pet rest hupd =>
          right
          obtain ⟨k, hk⟩ := updatePet_store _ _ _ _ _ _ _ _ _ _ _ hupd
          refine ⟨k, img, ?_⟩
          have hframe := indexPet_frame env { w with store := st } (indexInput pet)
          split
          · next w1 heq =>
            rw [heq] at hframe
            have h1 := hframe.1
            simp only at h1
            simpa [World.logged, h1, updatedPet] using hk
          · next w1 heq =>
            rw [heq] at hframe
            have h1 := hframe.1
            simp only at h1
            simpa [h1, updatedPet] using hk

theorem createdPet_paired (env : Env) (st : Store) (userId : Nat) (body : PetBody)
    (img : JsVal) (h : body.lat = .undefined ↔ body.lng = .undefined) :
    coordsPaired (createdPet env st userId body img) := by
  unfold coordsPaired createdPet newPet
  by_cases h1 : body.lat = .undefined <;> by_cases h2 : body.lng = .undefined <;>
    simp_all [coordParam, sqlArg, orNull]

theorem updatedPet_paired (p : Pet) (body : PetBody) (img : JsVal)
    (h : body.lat = .undefined ↔ body.lng = .undefined) (hp : coordsPaired p) :
    coordsPaired (updatedPet p body img) := by
  unfold coordsPaired at *
  by_cases h1 : body.lat = .undefined <;> by_cases h2 : body.lng = .undefined <;>
    simp_all [updatedPet, updateRow, coalesce_coordParam]

/-- C5, at the create request `{name: "Rex", lat: 19.4}`: the request is
answered 201 and the store, reached from the empty store by this one request,
holds a pet with a latitude and no longitude. -/
theorem create_with_lat_only :
    (postPets sampleEnv emptyWorld 1
        { emptyBody with name := .str "Rex", lat := .num (.fin false 194 (-1)) }).2 =
      { status := 201,
        body := .pet { id := 1, userId := 1, name := .str "Rex", location := .null,
                       lat := .num (.fin false 194 (-1)), lng := .null, imageUrl := .null,
                       status := .str "lost", createdAt := 1700000000 } } ∧
    (postPets sampleEnv emptyWorld 1
        { emptyBody with name := .str "Rex", lat := .num (.fin false 194 (-1)) }).1.store.pets =
      [{ id := 1, userId := 1, name := .str "Rex", location := .null,
         lat := .num (.fin false 194 (-1)), lng := .null, imageUrl := .null,
         status := .str "lost", createdAt := 1700000000 }] ∧
    ¬ (∀ w, Reachable anyRequest w → ∀ p ∈ w.store.pets, coordsPaired p) := by
  refine ⟨by decide, by decide, ?_⟩
  intro hall
  have hreach : Reachable anyRequest
      ((PetRequest.create 1
          { emptyBody with name := .str "Rex", lat := .num (.fin false 194 (-1)) }).run
        sampleEnv emptyWorld).1 :=
    Reachable.step emptyWorld sampleEnv _ (Reachable.start emptyWorld rfl) trivial
  have hp := hall _ hreach
    { id := 1, userId := 1, name := .str "Rex", location := .null,
      lat := .num (.fin false 194 (-1)), lng := .null, imageUrl := .null,
      status := .str "lost", createdAt := 1700000000 } (by decide)
  simp [coordsPaired] at hp

/-- C5 (amended): in every store reached from one without pets by create and
update requests each of which gives `lat` and `lng` together or gives
neither, every pet has both coordinates or neither. -/
theorem coords_paired_of_together (w : World) (h : Reachable coordsTogether w) :
    ∀ p ∈ w.store.pets, coordsPaired p := by
  induction h with
  | start w h => simp [h]
  | step w env r _ hr ih =>
    cases r with
    | create userId body =>
      have hb : body.lat = .undefined ↔ body.lng = .undefined := hr
      rcases postPets_pets env w userId body with hsame | ⟨img, hadd⟩
      · intro p hp
        exact ih p (by simpa [PetRequest.run, hsame] using hp)
      · intro p hp
        simp only [PetRequest.run, hadd, List.mem_append, List.mem_singleton] at hp
        rcases hp with hp | rfl
        · exact ih p hp
        · exact createdPet_paired env w.store userId body img hb
    | update userId idParam body =>
      have hb : body.lat = .undefined ↔ body.lng = .undefined := hr
      rcases putPetsId_pets env w userId idParam body with hsame | ⟨k, img, hmap⟩
      · intro p hp
        exact ih p (by simpa [PetRequest.run, hsame] using hp)
      · intro p hp
        simp only [PetRequest.run, hmap, List.mem_map] at hp
        obtain ⟨q, hq, rfl⟩ := hp
        split
        · exact updatedPet_paired q body img hb (ih q hq)
        · exact ih q hq

theorem coords_paired_of_together_witness :
    (putPetsId sampleEnv
        (postPets sampleEnv emptyWorld 1
          { emptyBody with name := .str "Rex", lat := .num (.fin false 194 (-1)),
                           lng := .num (.fin true 991 (-1)) }).1
        1 "1" { emptyBody with status := .str "found" }).1.store.pets =
      [{ id := 1, userId := 1, name := .str "Rex", location := .null,
         lat := .num (.fin false 194 (-1)), lng := .num (.fin true 991 (-1)),
         imageUrl := .null, status := .str "found", createdAt := 1700000000 }] ∧
    coordsPaired
      { id := 1, userId := 1, name := .str "Rex", location := .null,
        lat := .num (.fin false 194 (-1)), lng := .num (.fin true 991 (-1)),
        imageUrl := .null, status := .str "found", createdAt := 1700000000 } :=
  ⟨by decide,
   coords_paired_of_together
    (putPetsId sampleEnv
        (postPets sampleEnv emptyWorld 1
          { emptyBody with name := .str "Rex", lat := .num (.fin false 194 (-1)),
                           lng := .num (.fin true 991 (-1)) }).1
        1 "1" { emptyBody with status := .str "found" }).1
    (Reachable.step _ sampleEnv (.update 1 "1" { emptyBody with status := .str "found" })
      (Reachable.step emptyWorld sampleEnv
        (.create 1 { emptyBody with name := .str "Rex", lat := .num (.fin false 194 (-1)),
                                    lng := .num (.fin true 991 (-1)) })
        (Reachable.start emptyWorld rfl) (by decide))
      (by decide))
    _ (by decide)⟩

/-- Every pet that `POST /pets` returns has status `lost`, whatever the body
holds. -/
theorem postPets_returns_lost (env : Env) (w : World) (userId : Nat) (body : PetBody)
    (p : Pet) (h : (postPets env w userId body).2.body = .pet p) :
    p.status = .str "lost" := by
  unfold postPets at h
  split at h
  · simp at h
  · split at h
    · simp [internalError] at h
    · split at h
      · simp [internalError] at h
      · next st pet hins =>
        have hpet : pet.status = .str "lost" := by
          unfold insertPet at hins
          split at hins
          · simp at hins
          · simp at hins
            rw [← hins.2]
            rfl
        split at h
        · simp [internalError] at h
        · simp at h
          rw [← h]
          exact hpet

/-- C6, at a create of Rex followed by the owner's update with the body
`{status: "banana"}`: the create returns Rex with status `lost`, the update is
answered 200 and the stored pet has status `banana`, neither `lost` nor
`found`. -/
theorem update_status_unchecked :
    (postPets sampleEnv emptyWorld 1 { emptyBody with name := .str "Rex" }).2 =
      { status := 201,
        body := .pet { id := 1, userId := 1, name := .str "Rex", location := .null,
                       lat := .null, lng := .null, imageUrl := .null,
                       status := .str "lost", createdAt := 1700000000 } } ∧
    (putPetsId sampleEnv
        (postPets sampleEnv emptyWorld 1 { emptyBody with name := .str "Rex" }).1
        1 "1" { emptyBody with status := .str "banana" }).2 =
      { status := 200,
        body := .pet { id := 1, userId := 1, name := .str "Rex", location := .null,
                       lat := .null, lng := .null, imageUrl := .null,
                       status := .str "banana", createdAt := 1700000000 } } ∧
    (putPetsId sampleEnv
        (postPets sampleEnv emptyWorld 1 { emptyBody with name := .str "Rex" }).1
        1 "1" { emptyBody with status := .str "banana" }).1.store.pets =
      [{ id := 1, userId := 1, name := .str "Rex", location := .null,
         lat := .null, lng := .null, imageUrl := .null,
         status := .str "banana", createdAt := 1700000000 }] := by
  refine ⟨by decide, by decide, by decide⟩

end LostPets
